import Mathlib

/-!
Verification of the EBS dashboard generator scripts
(`dashboardcreation_EBS.py` and `dashboardwithoutanimation.py`).

The scripts query EC2 for volumes attached to an instance, resolve a
display name per volume (from the `Name` tag or interactive input),
build two CloudWatch widgets per volume (IOPS and throughput) and
publish a dashboard document.  We embed the pure data transformations
directly; remote calls are modelled as `Except`-valued inputs and the
interactive input stream as a list of strings.
-/

set_option maxRecDepth 4000

/-- A JSON-like value, the shape of the Python dicts the scripts build. -/
inductive JVal where
  | str (s : String)
  | int (n : Int)
  | bool (b : Bool)
  | arr (xs : List JVal)
  | obj (fields : List (String × JVal))

namespace EBS

/-- `generate_iops_widget` of `dashboardcreation_EBS.py` (lines 26-52):
the IOPS widget properties for one volume. -/
def generate_iops_widget (volume_id drive_name region : String) (iops : Int) : JVal :=
  .obj [
    ("metrics", .arr [
      .arr [.obj [("expression", .str "(m1+m2)/(60-m3)"), ("label", .str "Expression1"),
                  ("id", .str "e1"), ("region", .str region)]],
      .arr [.str "AWS/EBS", .str "VolumeReadOps", .str "VolumeId", .str volume_id,
            .obj [("id", .str "m1"), ("visible", .bool false), ("region", .str region)]],
      .arr [.str ".", .str "VolumeWriteOps", .str ".", .str ".",
            .obj [("id", .str "m2"), ("visible", .bool false), ("region", .str region)]],
      .arr [.str ".", .str "VolumeIdleTime", .str ".", .str ".",
            .obj [("id", .str "m3"), ("visible", .bool false), ("region", .str region)]]]),
    ("view", .str "timeSeries"),
    ("stacked", .bool false),
    ("region", .str region),
    ("stat", .str "Sum"),
    ("period", .int 60),
    ("title", .str ("IOPS - " ++ volume_id ++ "_" ++ drive_name)),
    ("annotations", .obj [
      ("horizontal", .arr [
        .obj [("value", .int iops), ("fill", .str "below")]])])]

/-- `generate_throughput_widget` of `dashboardcreation_EBS.py` (lines 54-93):
the throughput widget properties; the limit is converted MB/s to bytes/s
by `throughput * 1024 * 1024`. -/
def generate_throughput_widget (volume_id drive_name region : String) (throughput : Int) : JVal :=
  .obj [
    ("sparkline", .bool true),
    ("metrics", .arr [
      .arr [.obj [("expression", .str "(m1+m2)/(60-m3)"), ("label", .str "Expression1"),
                  ("id", .str "e1"), ("period", .int 60), ("stat", .str "Sum"),
                  ("region", .str region)]],
      .arr [.str "AWS/EBS", .str "VolumeReadBytes", .str "VolumeId", .str volume_id,
            .obj [("id", .str "m1"), ("visible", .bool false), ("region", .str region)]],
      .arr [.str ".", .str "VolumeWriteBytes", .str ".", .str ".",
            .obj [("id", .str "m2"), ("visible", .bool false), ("region", .str region)]],
      .arr [.str ".", .str "VolumeIdleTime", .str ".", .str ".",
            .obj [("id", .str "m3"), ("visible", .bool false), ("region", .str region)]]]),
    ("view", .str "timeSeries"),
    ("stacked", .bool false),
    ("region", .str region),
    ("stat", .str "Sum"),
    ("period", .int 60),
    ("yAxis", .obj [("left", .obj [("min", .int 0)])]),
    ("liveData", .bool false),
    ("singleValueFullPrecision", .bool false),
    ("setPeriodToTimeRange", .bool true),
    ("title", .str ("Throughput - " ++ volume_id ++ "_" ++ drive_name)),
    ("annotations", .obj [
      ("horizontal", .arr [
        .obj [("value", .int (throughput * 1024 * 1024)), ("fill", .str "below")]])])]

end EBS

namespace WOA

/-- `generate_iops_widget` of `dashboardwithoutanimation.py` (lines 19-45). -/
def generate_iops_widget (volume_id drive_name region : String) (iops : Int) : JVal :=
  .obj [
    ("metrics", .arr [
      .arr [.obj [("expression", .str "(m1+m2)/(60-m3)"), ("label", .str "Expression1"),
                  ("id", .str "e1"), ("region", .str region)]],
      .arr [.str "AWS/EBS", .str "VolumeReadOps", .str "VolumeId", .str volume_id,
            .obj [("id", .str "m1"), ("visible", .bool false), ("region", .str region)]],
      .arr [.str ".", .str "VolumeWriteOps", .str ".", .str ".",
            .obj [("id", .str "m2"), ("visible", .bool false), ("region", .str region)]],
      .arr [.str ".", .str "VolumeIdleTime", .str ".", .str ".",
            .obj [("id", .str "m3"), ("visible", .bool false), ("region", .str region)]]]),
    ("view", .str "timeSeries"),
    ("stacked", .bool false),
    ("region", .str region),
    ("stat", .str "Sum"),
    ("period", .int 60),
    ("title", .str ("IOPS - " ++ volume_id ++ "_" ++ drive_name)),
    ("annotations", .obj [
      ("horizontal", .arr [
        .obj [("value", .int iops), ("fill", .str "below")]])])]

/-- `generate_throughput_widget` of `dashboardwithoutanimation.py` (lines 47-86). -/
def generate_throughput_widget (volume_id drive_name region : String) (throughput : Int) : JVal :=
  .obj [
    ("sparkline", .bool true),
    ("metrics", .arr [
      .arr [.obj [("expression", .str "(m1+m2)/(60-m3)"), ("label", .str "Expression1"),
                  ("id", .str "e1"), ("period", .int 60), ("stat", .str "Sum"),
                  ("region", .str region)]],
      .arr [.str "AWS/EBS", .str "VolumeReadBytes", .str "VolumeId", .str volume_id,
            .obj [("id", .str "m1"), ("visible", .bool false), ("region", .str region)]],
      .arr [.str ".", .str "VolumeWriteBytes", .str ".", .str ".",
            .obj [("id", .str "m2"), ("visible", .bool false), ("region", .str region)]],
      .arr [.str ".", .str "VolumeIdleTime", .str ".", .str ".",
            .obj [("id", .str "m3"), ("visible", .bool false), ("region", .str region)]]]),
    ("view", .str "timeSeries"),
    ("stacked", .bool false),
    ("region", .str region),
    ("stat", .str "Sum"),
    ("period", .int 60),
    ("yAxis", .obj [("left", .obj [("min", .int 0)])]),
    ("liveData", .bool false),
    ("singleValueFullPrecision", .bool false),
    ("setPeriodToTimeRange", .bool true),
    ("title", .str ("Throughput - " ++ volume_id ++ "_" ++ drive_name)),
    ("annotations", .obj [
      ("horizontal", .arr [
        .obj [("value", .int (throughput * 1024 * 1024)), ("fill", .str "below")]])])]

end WOA

/-- Look up a key in a JSON object (first occurrence). -/
def JVal.field (v : JVal) (key : String) : Option JVal :=
  match v with
  | .obj fs => (fs.find? (fun p => p.1 = key)).map (·.2)
  | _ => none

/-- The value of the single horizontal annotation of a widget, when the
widget has the `annotations.horizontal[0].value` shape the scripts emit. -/
def horizontalAnnotationValue (w : JVal) : Option Int :=
  match w.field "annotations" with
  | some a =>
    match a.field "horizontal" with
    | some (.arr (h :: _)) =>
      match h.field "value" with
      | some (.int n) => some n
      | _ => none
    | _ => none
  | none => none

/-- The `title` string of a widget. -/
def widgetTitle (w : JVal) : Option String :=
  match w.field "title" with
  | some (.str s) => some s
  | _ => none

/-! ## Data model of the remote responses -/

/-- One entry of the `Volumes` list returned by the per-volume
`describe_volumes(VolumeIds=[...])` call: the fields `get_volume_details`
reads.  `tags` are the (Key, Value) pairs of the `Tags` list (absent tags
list is the empty list, as `volume.get('Tags', [])` yields); `iops` /
`throughput` are `none` when the corresponding field is absent. -/
structure RawVolumeDetail where
  tags : List (String × String)
  iops : Option Int
  throughput : Option Int
deriving DecidableEq

/-- The record `get_volume_details` returns. -/
structure VolDetails where
  name_tag : Option String
  iops : Int
  throughput : Int
deriving DecidableEq

/-- One entry of the `Volumes` list returned by the filtered
`describe_volumes` call in `get_volume_info`: the fields that function
reads.  `attachments` is the list of `Device` names of the `Attachments`
entries. -/
structure RawVolume where
  volumeId : String
  attachments : List String
  size : Int
deriving DecidableEq

/-- The per-volume record `get_volume_info` appends to its result. -/
structure VolInfo where
  volumeId : String
  deviceName : String
  size : Int
  nameTag : Option String
  iops : Int
  throughput : Int
deriving DecidableEq

/-- `get_volume_details` (`dashboardcreation_EBS.py` lines 12-24).  The
remote `describe_volumes(VolumeIds=[volume_id])` call is modelled by
`fetch`: `Except.error` when the call raises, otherwise the `Volumes`
list of the response.  The name tag is the `Value` of the first tag with
`Key = 'Name'`; `Iops` defaults to 3000 and `Throughput` to 125. -/
def get_volume_details (fetch : String → Except String (List RawVolumeDetail))
    (volume_id : String) : Except String VolDetails := do
  let vols ← fetch volume_id
  match vols with
  | v :: _ =>
    pure { name_tag := (v.tags.find? (fun t => t.1 = "Name")).map (·.2),
           iops := v.iops.getD 3000,
           throughput := v.throughput.getD 125 }
  | [] => pure { name_tag := none, iops := 3000, throughput := 125 }

/-- One iteration of the `for volume in response['Volumes']` loop of
`get_volume_info` (`dashboardcreation_EBS.py` lines 120-130): the code
reads `volume['Attachments'][0]['Device']` (an `IndexError` when the
attachment list is empty, modelled as `Except.error`) and calls
`get_volume_details`. -/
def volumeStep (fetch : String → Except String (List RawVolumeDetail))
    (volume : RawVolume) : Except String VolInfo := do
  let device_name ← match volume.attachments with
    | [] => Except.error "list index out of range"
    | d :: _ => pure d
  let volume_details ← get_volume_details fetch volume.volumeId
  pure { volumeId := volume.volumeId,
         deviceName := device_name,
         size := volume.size,
         nameTag := volume_details.name_tag,
         iops := volume_details.iops,
         throughput := volume_details.throughput }

/-- The `for volume in response['Volumes']` loop of `get_volume_info`
(lines 120-130): append one `VolInfo` per raw volume, propagating any
exception raised by an iteration. -/
def volumesLoop (fetch : String → Except String (List RawVolumeDetail)) :
    List RawVolume → Except String (List VolInfo)
  | [] => .ok []
  | volume :: rest => do
    let info ← volumeStep fetch volume
    let infos ← volumesLoop fetch rest
    pure (info :: infos)

/-- The body of the `try` block of `get_volume_info`
(`dashboardcreation_EBS.py` lines 109-132).  `resp` is the filtered
`describe_volumes` call (`Except.error` when it raises), followed by
the per-volume loop. -/
def get_volume_info_body (resp : Except String (List RawVolume))
    (fetch : String → Except String (List RawVolumeDetail)) :
    Except String (List VolInfo) := do
  let vols ← resp
  volumesLoop fetch vols

/-- `get_volume_info` (`dashboardcreation_EBS.py` lines 105-136): the
`except Exception` handler turns any error raised in the body into the
empty list. -/
def get_volume_info (resp : Except String (List RawVolume))
    (fetch : String → Except String (List RawVolumeDetail)) : List VolInfo :=
  match get_volume_info_body resp fetch with
  | .ok volumes => volumes
  | .error _ => []

/-! ## Drive-name resolution -/

/-- Python's `str.strip()` (whitespace from both ends), modelled
structurally over the character list so that it evaluates inside the
kernel. -/
def pyStrip (s : String) : String :=
  ⟨((s.data.dropWhile Char.isWhitespace).reverse.dropWhile Char.isWhitespace).reverse⟩

/-- Python's `str.startswith(p)`, modelled over character lists. -/
def pyStartsWith (s p : String) : Bool :=
  p.data.isPrefixOf s.data

/-- Python truthiness of the optional name tag: `if name_tag:` is taken
iff the tag is present and non-empty. -/
def truthyTag : Option String → Bool
  | none => false
  | some s => s ≠ ""

/-- The inner `while True` input loop of `get_drive_names`
(`dashboardcreation_EBS.py` lines 160-165): read from the stream,
strip, accept the first non-empty result; `none` when the stream is
exhausted (the Python loop would block forever). -/
def readDriveName : List String → Option (String × List String)
  | [] => none
  | s :: rest =>
    let drive_name := pyStrip s
    if drive_name ≠ "" then some (drive_name, rest) else readDriveName rest

/-- `get_drive_names` (`dashboardcreation_EBS.py` lines 138-167), with
the interactive input modelled as a stream of entered strings.  Returns
the association list (volume id, drive name) in volume order, paired
with the unconsumed remainder of the stream; `none` when the stream is
exhausted while a prompt is still waiting. -/
def get_drive_names : List VolInfo → List String →
    Option (List (String × String) × List String)
  | [], inputs => some ([], inputs)
  | volume :: volumes, inputs =>
    if truthyTag volume.nameTag then
      match get_drive_names volumes inputs with
      | some (m, rest) => some ((volume.volumeId, volume.nameTag.getD "") :: m, rest)
      | none => none
    else
      match readDriveName inputs with
      | none => none
      | some (drive_name, inputs₁) =>
        match get_drive_names volumes inputs₁ with
        | some (m, rest) => some ((volume.volumeId, drive_name) :: m, rest)
        | none => none

/-! ## Dashboard assembly -/

/-- One entry of the `widgets` list built by `create_dashboard`
(`dashboardcreation_EBS.py` lines 189-212). -/
def widgetEntry (props : JVal) : JVal :=
  .obj [("type", .str "metric"), ("width", .int 12), ("height", .int 6),
        ("properties", props)]

/-- The widget-building loop of `create_dashboard` (lines 184-213): per
volume, the IOPS entry then the throughput entry, with the drive name
looked up in the mapping produced by `get_drive_names` (a missing key
raises a `KeyError` in Python, modelled as `none`). -/
def buildWidgets (region : String) (volumes : List VolInfo)
    (drive_names : List (String × String)) : Option (List JVal) :=
  match volumes with
  | [] => some []
  | volume :: rest =>
    match (drive_names.find? (fun p => p.1 = volume.volumeId)).map (·.2) with
    | none => none
    | some drive_name =>
      match buildWidgets region rest drive_names with
      | none => none
      | some ws =>
        some (widgetEntry (EBS.generate_iops_widget volume.volumeId drive_name
                region volume.iops) ::
              widgetEntry (EBS.generate_throughput_widget volume.volumeId drive_name
                region volume.throughput) :: ws)

/-- `create_dashboard` (`dashboardcreation_EBS.py` lines 169-232),
returning the `put_dashboard` call it performs: `some (name, body)`
when the dashboard is published, `none` when the function returns
without publishing (no volumes, exhausted input stream, or an exception
caught by the surrounding handler). -/
def create_dashboard (region : String) (resp : Except String (List RawVolume))
    (fetch : String → Except String (List RawVolumeDetail))
    (inputs : List String) (dashboard_name : String) : Option (String × JVal) :=
  let volumes := get_volume_info resp fetch
  if volumes.isEmpty then none
  else
    match get_drive_names volumes inputs with
    | none => none
    | some (drive_names, _) =>
      match buildWidgets region volumes drive_names with
      | none => none
      | some widgets => some (dashboard_name, .obj [("widgets", .arr widgets)])

/-! ## Instance-id input loop -/

/-- The acceptance test of the instance-id loop (`dashboardcreation_EBS.py`
line 270), applied to the already-stripped input. -/
def validInstanceId (instance_id : String) : Bool :=
  pyStartsWith instance_id "i-" && instance_id.length > 2

/-- The instance-id `while True` loop of `get_user_inputs` (lines
268-272): strip each entered string and accept the first one passing
`validInstanceId`; `none` when the stream is exhausted. -/
def readInstanceId : List String → Option String
  | [] => none
  | s :: rest =>
    let instance_id := pyStrip s
    if validInstanceId instance_id then some instance_id else readInstanceId rest

/-! ## Helper lemmas -/

theorem except_bind_ok {α β : Type} (a : α) (f : α → Except String β) :
    (Except.ok a >>= f) = f a := rfl

theorem except_bind_error {α β : Type} (e : String) (f : α → Except String β) :
    ((Except.error e : Except String α) >>= f) = Except.error e := rfl

theorem except_pure {α : Type} (a : α) : (pure a : Except String α) = Except.ok a := rfl

/-- If the per-volume loop succeeds, every iteration succeeded. -/
theorem volumesLoop_ok_forall (fetch : String → Except String (List RawVolumeDetail)) :
    ∀ (l : List RawVolume) (r : List VolInfo), volumesLoop fetch l = .ok r →
      ∀ v ∈ l, ∃ b, volumeStep fetch v = .ok b := by
  intro l
  induction l with
  | nil => intro r _ v hv; cases hv
  | cons x xs ih =>
    intro r h v hv
    rw [volumesLoop] at h
    cases hx : volumeStep fetch x with
    | error e => rw [hx, except_bind_error] at h; cases h
    | ok b =>
      rw [hx, except_bind_ok] at h
      cases hxs : volumesLoop fetch xs with
      | error e => rw [hxs, except_bind_error] at h; cases h
      | ok bs =>
        rcases List.mem_cons.mp hv with rfl | hv
        · exact ⟨b, hx⟩
        · exact ih bs hxs v hv

/-- A successful `get_drive_names` returns one entry per volume, keyed by
the volume ids in order. -/
theorem get_drive_names_keys :
    ∀ (volumes : List VolInfo) (inputs : List String) (m : List (String × String))
      (rest : List String),
      get_drive_names volumes inputs = some (m, rest) →
      m.map Prod.fst = volumes.map VolInfo.volumeId := by
  intro volumes
  induction volumes with
  | nil =>
    intro inputs m rest h
    simp only [get_drive_names, Option.some.injEq, Prod.mk.injEq] at h
    rw [← h.1]
    rfl
  | cons v vs ih =>
    intro inputs m rest h
    simp only [get_drive_names] at h
    by_cases ht : truthyTag v.nameTag
    · rw [if_pos ht] at h
      cases hrec : get_drive_names vs inputs with
      | none => rw [hrec] at h; cases h
      | some p =>
        obtain ⟨m', rest'⟩ := p
        rw [hrec] at h
        cases h
        simp [ih _ _ _ hrec]
    · rw [if_neg ht] at h
      cases hr : readDriveName inputs with
      | none => rw [hr] at h; cases h
      | some q =>
        obtain ⟨d, ins⟩ := q
        rw [hr] at h
        dsimp only at h
        cases hrec : get_drive_names vs ins with
        | none => rw [hrec] at h; cases h
        | some p =>
          obtain ⟨m', rest'⟩ := p
          rw [hrec] at h
          cases h
          simp [ih _ _ _ hrec]

/-- A key occurring among an association list's keys is found by `find?`. -/
theorem find?_mem_keys (key : String) (dn : List (String × String))
    (h : key ∈ dn.map Prod.fst) :
    ∃ q, dn.find? (fun p => p.1 = key) = some q ∧ q.1 = key := by
  induction dn with
  | nil => simp at h
  | cons q dn ih =>
    by_cases hq : q.1 = key
    · exact ⟨q, by simp [List.find?, hq], hq⟩
    · have h' : key ∈ dn.map Prod.fst := by
        rcases List.mem_map.mp h with ⟨p, hp, hpk⟩
        rcases List.mem_cons.mp hp with rfl | hp
        · exact absurd hpk hq
        · exact List.mem_map.mpr ⟨p, hp, hpk⟩
      obtain ⟨r, hr, hrk⟩ := ih h'
      exact ⟨r, by simp [List.find?, hq, hr], hrk⟩

/-- When every volume id has an entry in the mapping, the widget loop
succeeds and produces, per volume in order, the IOPS entry followed by
the throughput entry. -/
theorem buildWidgets_eq (region : String) :
    ∀ (volumes : List VolInfo) (drive_names : List (String × String)),
      (∀ v ∈ volumes, v.volumeId ∈ drive_names.map Prod.fst) →
      buildWidgets region volumes drive_names =
        some (volumes.flatMap (fun v =>
          [widgetEntry (EBS.generate_iops_widget v.volumeId
              (((drive_names.find? (fun p => p.1 = v.volumeId)).map (·.2)).getD "")
              region v.iops),
           widgetEntry (EBS.generate_throughput_widget v.volumeId
              (((drive_names.find? (fun p => p.1 = v.volumeId)).map (·.2)).getD "")
              region v.throughput)])) := by
  intro volumes dn hmem
  induction volumes with
  | nil => simp [buildWidgets]
  | cons v vs ih =>
    obtain ⟨q, hq, hqk⟩ := find?_mem_keys v.volumeId dn (hmem v (List.mem_cons_self v vs))
    have hrec := ih (fun w hw => hmem w (List.mem_cons_of_mem v hw))
    simp [buildWidgets, hq, hrec]

/-- Unfolding of `get_drive_names` on a volume whose name tag is truthy. -/
theorem get_drive_names_cons_truthy (v : VolInfo) (vs : List VolInfo)
    (inputs : List String) (ht : truthyTag v.nameTag = true) :
    get_drive_names (v :: vs) inputs =
      match get_drive_names vs inputs with
      | some (m, rest) => some ((v.volumeId, v.nameTag.getD "") :: m, rest)
      | none => none := by
  simp [get_drive_names, ht]

/-- Unfolding of `get_drive_names` on a volume that prompts and reads a
drive name from the stream. -/
theorem get_drive_names_cons_prompt (v : VolInfo) (vs : List VolInfo)
    (inputs : List String) (d : String) (ins : List String)
    (ht : truthyTag v.nameTag = false) (hr : readDriveName inputs = some (d, ins)) :
    get_drive_names (v :: vs) inputs =
      match get_drive_names vs ins with
      | some (m, rest) => some ((v.volumeId, d) :: m, rest)
      | none => none := by
  simp [get_drive_names, ht, hr]

/-- Unfolding of `get_drive_names` on a volume that prompts while the
stream has no non-empty entry left. -/
theorem get_drive_names_cons_prompt_none (v : VolInfo) (vs : List VolInfo)
    (inputs : List String)
    (ht : truthyTag v.nameTag = false) (hr : readDriveName inputs = none) :
    get_drive_names (v :: vs) inputs = none := by
  simp [get_drive_names, ht, hr]

/-- A successful run over an appended volume list decomposes: a prefix
run, then a run of the rest on the unconsumed stream. -/
theorem get_drive_names_append :
    ∀ (l1 l2 : List VolInfo) (inputs : List String) (m : List (String × String))
      (rest : List String),
      get_drive_names (l1 ++ l2) inputs = some (m, rest) →
      ∃ m1 pending m2, get_drive_names l1 inputs = some (m1, pending) ∧
        get_drive_names l2 pending = some (m2, rest) ∧ m = m1 ++ m2 := by
  intro l1
  induction l1 with
  | nil =>
    intro l2 inputs m rest h
    exact ⟨[], inputs, m, rfl, h, rfl⟩
  | cons v vs ih =>
    intro l2 inputs m rest h
    rw [List.cons_append] at h
    cases ht : truthyTag v.nameTag with
    | true =>
      rw [get_drive_names_cons_truthy v (vs ++ l2) inputs ht] at h
      cases hrec : get_drive_names (vs ++ l2) inputs with
      | none => rw [hrec] at h; cases h
      | some p =>
        obtain ⟨m', rest'⟩ := p
        rw [hrec] at h
        cases h
        obtain ⟨m1, pending, m2, h1, h2, rfl⟩ := ih l2 inputs m' _ hrec
        refine ⟨(v.volumeId, v.nameTag.getD "") :: m1, pending, m2, ?_, h2, rfl⟩
        rw [get_drive_names_cons_truthy v vs inputs ht, h1]
    | false =>
      cases hr : readDriveName inputs with
      | none =>
        rw [get_drive_names_cons_prompt_none v (vs ++ l2) inputs ht hr] at h
        cases h
      | some q =>
        obtain ⟨d, ins⟩ := q
        rw [get_drive_names_cons_prompt v (vs ++ l2) inputs d ins ht hr] at h
        cases hrec : get_drive_names (vs ++ l2) ins with
        | none => rw [hrec] at h; cases h
        | some p =>
          obtain ⟨m', rest'⟩ := p
          rw [hrec] at h
          cases h
          obtain ⟨m1, pending, m2, h1, h2, rfl⟩ := ih l2 ins m' _ hrec
          refine ⟨(v.volumeId, d) :: m1, pending, m2, ?_, h2, rfl⟩
          rw [get_drive_names_cons_prompt v vs inputs d ins ht hr, h1]

/-- Composition: a run of a prefix followed by a run of the rest on the
unconsumed stream is a run of the appended list. -/
theorem get_drive_names_append_of :
    ∀ (l1 l2 : List VolInfo) (inputs pending rest : List String)
      (m1 m2 : List (String × String)),
      get_drive_names l1 inputs = some (m1, pending) →
      get_drive_names l2 pending = some (m2, rest) →
      get_drive_names (l1 ++ l2) inputs = some (m1 ++ m2, rest) := by
  intro l1
  induction l1 with
  | nil =>
    intro l2 inputs pending rest m1 m2 h1 h2
    simp only [get_drive_names, Option.some.injEq, Prod.mk.injEq] at h1
    obtain ⟨rfl, rfl⟩ := h1
    simpa using h2
  | cons v vs ih =>
    intro l2 inputs pending rest m1 m2 h1 h2
    rw [List.cons_append]
    cases ht : truthyTag v.nameTag with
    | true =>
      rw [get_drive_names_cons_truthy v vs inputs ht] at h1
      rw [get_drive_names_cons_truthy v (vs ++ l2) inputs ht]
      cases hrec : get_drive_names vs inputs with
      | none => rw [hrec] at h1; cases h1
      | some p =>
        obtain ⟨m1', pending'⟩ := p
        rw [hrec] at h1
        cases h1
        rw [ih l2 inputs pending rest m1' m2 hrec h2]
        rfl
    | false =>
      cases hr : readDriveName inputs with
      | none =>
        rw [get_drive_names_cons_prompt_none v vs inputs ht hr] at h1
        cases h1
      | some q =>
        obtain ⟨d, ins⟩ := q
        rw [get_drive_names_cons_prompt v vs inputs d ins ht hr] at h1
        rw [get_drive_names_cons_prompt v (vs ++ l2) inputs d ins ht hr]
        cases hrec : get_drive_names vs ins with
        | none => rw [hrec] at h1; cases h1
        | some p =>
          obtain ⟨m1', pending'⟩ := p
          rw [hrec] at h1
          cases h1
          rw [ih l2 ins pending rest m1' m2 hrec h2]
          rfl

/-- `find?` on an association list picks the middle entry when no key
before it matches. -/
theorem find?_assoc_middle (key x : String) (m1 m2 : List (String × String))
    (hm1 : ∀ p ∈ m1, p.1 ≠ key) :
    (m1 ++ (key, x) :: m2).find? (fun p => p.1 = key) = some (key, x) := by
  induction m1 with
  | nil => simp [List.find?]
  | cons q m1 ih =>
    have hq : ¬ (q.1 = key) := hm1 q (List.mem_cons_self q m1)
    have ih' := ih (fun p hp => hm1 p (List.mem_cons_of_mem q hp))
    simp [List.find?, hq, ih']

/-- Flat-mapping a two-element list over `l` doubles the length. -/
theorem length_flatMap_pair {α β : Type} (f g : α → β) :
    ∀ l : List α, (l.flatMap (fun a => [f a, g a])).length = 2 * l.length := by
  intro l
  induction l with
  | nil => rfl
  | cons a l ih =>
    simp only [List.flatMap_cons, List.length_append, List.length_cons, ih, List.length_nil]
    omega

/-! ## Theorems -/

/-- C2: for every throughput limit T, the horizontal annotation value of
the throughput widget is exactly T × 1,048,576, while the IOPS widget's
annotation value is the supplied IOPS limit unconverted. -/
theorem c2_annotation_values (volume_id drive_name region : String)
    (throughput iops : Int) :
    horizontalAnnotationValue
        (EBS.generate_throughput_widget volume_id drive_name region throughput)
      = some (throughput * 1048576) ∧
    horizontalAnnotationValue
        (EBS.generate_iops_widget volume_id drive_name region iops)
      = some iops := by
  refine ⟨?_, rfl⟩
  have h : horizontalAnnotationValue
      (EBS.generate_throughput_widget volume_id drive_name region throughput)
      = some (throughput * 1024 * 1024) := rfl
  rw [h, mul_assoc]
  norm_num

/-- C8: for volume `vol-1` with IOPS 3000, throughput 125 and drive name
`DATA`, the IOPS widget is titled `IOPS - vol-1_DATA` with annotation
3000 and the throughput widget is titled `Throughput - vol-1_DATA` with
annotation 131072000, in any region. -/
theorem c8_scenario_vol1_data (region : String) :
    widgetTitle (EBS.generate_iops_widget "vol-1" "DATA" region 3000)
      = some "IOPS - vol-1_DATA" ∧
    horizontalAnnotationValue (EBS.generate_iops_widget "vol-1" "DATA" region 3000)
      = some 3000 ∧
    widgetTitle (EBS.generate_throughput_widget "vol-1" "DATA" region 125)
      = some "Throughput - vol-1_DATA" ∧
    horizontalAnnotationValue (EBS.generate_throughput_widget "vol-1" "DATA" region 125)
      = some 131072000 :=
  ⟨rfl, rfl, rfl, rfl⟩

/-- C9: the widget builders of the two scripts agree on all inputs. -/
theorem c9_scripts_equivalent (volume_id drive_name region : String)
    (iops throughput : Int) :
    EBS.generate_iops_widget volume_id drive_name region iops
      = WOA.generate_iops_widget volume_id drive_name region iops ∧
    EBS.generate_throughput_widget volume_id drive_name region throughput
      = WOA.generate_throughput_widget volume_id drive_name region throughput :=
  ⟨rfl, rfl⟩

/-- C6: when the detail lookup returns a volume, `get_volume_details`
yields IOPS 3000 when the `Iops` field is absent, throughput 125 when
the `Throughput` field is absent, the first `Name` tag's value when one
is present, and `none` when no tag has key `Name`. -/
theorem c6_volume_details (fetch : String → Except String (List RawVolumeDetail))
    (volume_id : String) (v : RawVolumeDetail) (rest : List RawVolumeDetail)
    (h : fetch volume_id = .ok (v :: rest)) :
    ∃ d, get_volume_details fetch volume_id = .ok d ∧
      (v.iops = none → d.iops = 3000) ∧
      (v.throughput = none → d.throughput = 125) ∧
      (∀ p, v.tags.find? (fun t => t.1 = "Name") = some p → d.name_tag = some p.2) ∧
      ((∀ p ∈ v.tags, p.1 ≠ "Name") → d.name_tag = none) := by
  have hd : get_volume_details fetch volume_id =
      .ok { name_tag := (v.tags.find? (fun t => t.1 = "Name")).map (·.2),
            iops := v.iops.getD 3000, throughput := v.throughput.getD 125 } := by
    rw [get_volume_details, h]
    rfl
  refine ⟨_, hd, ?_, ?_, ?_, ?_⟩
  · intro hi; simp [hi]
  · intro ht; simp [ht]
  · intro p hp; simp [hp]
  · intro hnone
    have hfind : v.tags.find? (fun t => t.1 = "Name") = none := by
      apply List.find?_eq_none.mpr
      intro p hp
      simpa using hnone p hp
    simp [hfind]

/-- Witness for C6 at a concrete response: `Iops` and `Throughput`
absent and a `Name` tag with value `db`. -/
theorem c6_volume_details_witness :
    ∃ d, get_volume_details
        (fun _ => .ok [{ tags := [("Name", "db")], iops := none, throughput := none }])
        "vol-1" = .ok d ∧
      ((none : Option Int) = none → d.iops = 3000) ∧
      ((none : Option Int) = none → d.throughput = 125) ∧
      (∀ p, [("Name", "db")].find? (fun t : String × String => t.1 = "Name") = some p →
        d.name_tag = some p.2) ∧
      ((∀ p ∈ [("Name", "db")], (p : String × String).1 ≠ "Name") → d.name_tag = none) :=
  c6_volume_details
    (fun _ => .ok [{ tags := [("Name", "db")], iops := none, throughput := none }])
    "vol-1" { tags := [("Name", "db")], iops := none, throughput := none } [] rfl

/-- C4: an error raised during volume lookup makes `get_volume_info`
return the empty list, indistinguishable from an instance with no
attached volumes. -/
theorem c4_lookup_error_empty (resp : Except String (List RawVolume))
    (fetch : String → Except String (List RawVolumeDetail)) (e : String)
    (h : get_volume_info_body resp fetch = .error e) :
    get_volume_info resp fetch = [] ∧
    get_volume_info resp fetch = get_volume_info (.ok []) fetch := by
  have h1 : get_volume_info resp fetch = [] := by simp [get_volume_info, h]
  exact ⟨h1, by rw [h1]; rfl⟩

/-- Witness for C4 at a concrete failing `describe_volumes` call. -/
theorem c4_lookup_error_empty_witness :
    get_volume_info (.error "boom") (fun _ => .ok []) = [] ∧
    get_volume_info (.error "boom") (fun _ => .ok [])
      = get_volume_info (.ok []) (fun _ => .ok []) :=
  c4_lookup_error_empty (.error "boom") (fun _ => .ok []) "boom" rfl

/-- C10: if processing any single discovered volume fails (empty
`Attachments` list or a failing per-volume detail call), the whole
result of `get_volume_info` collapses to the empty list. -/
theorem c10_no_partial_list (vols : List RawVolume)
    (fetch : String → Except String (List RawVolumeDetail)) (v : RawVolume)
    (hv : v ∈ vols)
    (hfail : v.attachments = [] ∨ ∃ e, get_volume_details fetch v.volumeId = .error e) :
    get_volume_info (.ok vols) fetch = [] := by
  have hstep : ∀ b, volumeStep fetch v ≠ .ok b := by
    intro b hb
    rcases hfail with ha | ⟨e, he⟩
    · simp [volumeStep, ha, except_bind_error] at hb
    · cases hatt : v.attachments with
      | nil => simp [volumeStep, hatt, except_bind_error] at hb
      | cons d ds =>
        simp [volumeStep, hatt, he, except_bind_ok, except_bind_error, except_pure] at hb
  cases hbody : get_volume_info_body (.ok vols) fetch with
  | error e => simp [get_volume_info, hbody]
  | ok r =>
    exfalso
    have hloop : volumesLoop fetch vols = .ok r := hbody
    obtain ⟨b, hb⟩ := volumesLoop_ok_forall fetch vols r hloop v hv
    exact hstep b hb

/-- Witness for C10: one successfully described volume followed by a
volume whose `Attachments` list is empty; the result is empty even
though the first volume processed fine. -/
theorem c10_no_partial_list_witness :
    get_volume_info
      (.ok [{ volumeId := "vol-ok", attachments := ["/dev/sda1"], size := 100 },
            { volumeId := "vol-bad", attachments := [], size := 200 }])
      (fun _ => .ok []) = [] :=
  c10_no_partial_list
    [{ volumeId := "vol-ok", attachments := ["/dev/sda1"], size := 100 },
     { volumeId := "vol-bad", attachments := [], size := 200 }]
    (fun _ => .ok [])
    { volumeId := "vol-bad", attachments := [], size := 200 }
    (by simp)
    (Or.inl rfl)

/-- C5: when `get_volume_info` yields an empty volume list,
`create_dashboard` performs no `put_dashboard` call. -/
theorem c5_empty_no_publish (region : String) (resp : Except String (List RawVolume))
    (fetch : String → Except String (List RawVolumeDetail))
    (inputs : List String) (dashboard_name : String)
    (h : get_volume_info resp fetch = []) :
    create_dashboard region resp fetch inputs dashboard_name = none := by
  simp [create_dashboard, h]

/-- Witness for C5 at a concrete run with a failing lookup. -/
theorem c5_empty_no_publish_witness :
    create_dashboard "us-east-1" (.error "boom") (fun _ => .ok []) [] "dash" = none :=
  c5_empty_no_publish "us-east-1" (.error "boom") (fun _ => .ok []) [] "dash" rfl

/-- C1: for a non-empty discovered volume list with drive names
resolved, `create_dashboard` publishes exactly one document, an object
with the single key `widgets`, whose list is the per-volume flat map of
the IOPS entry followed by the throughput entry — each wrapped by
`widgetEntry` as a metric widget of width 12 and height 6 — and hence
has exactly 2N entries in volume order. -/
theorem c1_dashboard_document (region : String) (resp : Except String (List RawVolume))
    (fetch : String → Except String (List RawVolumeDetail))
    (inputs : List String) (dashboard_name : String)
    (volumes : List VolInfo) (drive_names : List (String × String)) (rest : List String)
    (hvol : get_volume_info resp fetch = volumes)
    (hne : volumes ≠ [])
    (hnames : get_drive_names volumes inputs = some (drive_names, rest)) :
    ∃ nm : VolInfo → String,
      create_dashboard region resp fetch inputs dashboard_name
        = some (dashboard_name, .obj [("widgets", .arr (volumes.flatMap (fun v =>
            [widgetEntry (EBS.generate_iops_widget v.volumeId (nm v) region v.iops),
             widgetEntry (EBS.generate_throughput_widget v.volumeId (nm v) region
               v.throughput)])))]) ∧
      (volumes.flatMap (fun v =>
          [widgetEntry (EBS.generate_iops_widget v.volumeId (nm v) region v.iops),
           widgetEntry (EBS.generate_throughput_widget v.volumeId (nm v) region
             v.throughput)])).length
        = 2 * volumes.length := by
  have hkeys := get_drive_names_keys volumes inputs drive_names rest hnames
  have hmem : ∀ v ∈ volumes, v.volumeId ∈ drive_names.map Prod.fst := by
    intro v hv
    rw [hkeys]
    exact List.mem_map.mpr ⟨v, hv, rfl⟩
  have hbw := buildWidgets_eq region volumes drive_names hmem
  have hie : volumes.isEmpty = false := by
    cases volumes with
    | nil => exact absurd rfl hne
    | cons a l => rfl
  refine ⟨fun v => ((drive_names.find? (fun p => p.1 = v.volumeId)).map (·.2)).getD "",
    ?_, length_flatMap_pair _ _ _⟩
  simp [create_dashboard, hvol, hie, hnames, hbw]

/-- Witness for C1: one discovered volume with a `Name` tag, no
interactive input needed. -/
theorem c1_dashboard_document_witness :
    ∃ nm : VolInfo → String,
      create_dashboard "us-east-1"
          (.ok [{ volumeId := "vol-1", attachments := ["/dev/sda1"], size := 100 }])
          (fun _ => .ok [{ tags := [("Name", "db")], iops := some 3000,
                           throughput := some 125 }])
          [] "dash"
        = some ("dash", .obj [("widgets", .arr
            (([{ volumeId := "vol-1", deviceName := "/dev/sda1", size := 100,
                 nameTag := some "db", iops := 3000, throughput := 125 }] :
              List VolInfo).flatMap (fun v =>
              [widgetEntry (EBS.generate_iops_widget v.volumeId (nm v) "us-east-1" v.iops),
               widgetEntry (EBS.generate_throughput_widget v.volumeId (nm v) "us-east-1"
                 v.throughput)])))]) ∧
      (([{ volumeId := "vol-1", deviceName := "/dev/sda1", size := 100,
           nameTag := some "db", iops := 3000, throughput := 125 }] :
        List VolInfo).flatMap (fun v =>
          [widgetEntry (EBS.generate_iops_widget v.volumeId (nm v) "us-east-1" v.iops),
           widgetEntry (EBS.generate_throughput_widget v.volumeId (nm v) "us-east-1"
             v.throughput)])).length
        = 2 * ([{ volumeId := "vol-1", deviceName := "/dev/sda1", size := 100,
                  nameTag := some "db", iops := 3000, throughput := 125 }] :
               List VolInfo).length :=
  c1_dashboard_document "us-east-1"
    (.ok [{ volumeId := "vol-1", attachments := ["/dev/sda1"], size := 100 }])
    (fun _ => .ok [{ tags := [("Name", "db")], iops := some 3000, throughput := some 125 }])
    [] "dash"
    [{ volumeId := "vol-1", deviceName := "/dev/sda1", size := 100,
       nameTag := some "db", iops := 3000, throughput := 125 }]
    [("vol-1", "db")] []
    rfl (by simp) rfl

/-- C3, counterexample to the claim as stated: a volume whose `Name`
tag is present with the empty string as value.  Python's `if name_tag:`
treats it as absent, so the human IS prompted (the input stream is
consumed) and the resulting drive name is the entered string, not the
tag value. -/
theorem c3_tag_counterexample :
    get_drive_names [{ volumeId := "vol-1", deviceName := "/dev/sda1", size := 100,
                       nameTag := some "", iops := 3000, throughput := 125 }] ["DATA"]
      = some ([("vol-1", "DATA")], []) ∧ ("DATA" : String) ≠ "" :=
  ⟨by decide, by decide⟩

/-- C3 (amended): for each position of the volume list, with pairwise
distinct volume ids: if the volume's name tag is present and non-empty,
its drive name is the tag value verbatim and deleting the volume leaves
the rest of the run (names of the other volumes and the unconsumed
stream) unchanged, i.e. the human is never prompted for it; if the tag
is absent or empty, its drive name is produced by `readDriveName` — the
first non-empty (after stripping) string entered — from the stream as
it stands after processing the preceding volumes. -/
theorem c3_drive_names_amended
    (volumes : List VolInfo) (inputs : List String)
    (m : List (String × String)) (rest : List String)
    (hnd : (volumes.map VolInfo.volumeId).Nodup)
    (h : get_drive_names volumes inputs = some (m, rest)) :
    ∀ l1 v l2, volumes = l1 ++ v :: l2 →
      (∀ t, v.nameTag = some t → t ≠ "" →
          m.find? (fun p => p.1 = v.volumeId) = some (v.volumeId, t) ∧
          ∃ m1 m2, m = m1 ++ (v.volumeId, t) :: m2 ∧
            get_drive_names (l1 ++ l2) inputs = some (m1 ++ m2, rest)) ∧
      (truthyTag v.nameTag = false →
          ∃ m1 pending drive_name pending₁,
            get_drive_names l1 inputs = some (m1, pending) ∧
            readDriveName pending = some (drive_name, pending₁) ∧
            m.find? (fun p => p.1 = v.volumeId) = some (v.volumeId, drive_name)) := by
  intro l1 v l2 hsplit
  subst hsplit
  obtain ⟨m1, pending, m2, h1, h2, rfl⟩ :=
    get_drive_names_append l1 (v :: l2) inputs m rest h
  have hk1 : m1.map Prod.fst = l1.map VolInfo.volumeId := get_drive_names_keys _ _ _ _ h1
  have hvid_not : ∀ p ∈ m1, p.1 ≠ v.volumeId := by
    intro p hp hpk
    have hmem : v.volumeId ∈ m1.map Prod.fst := List.mem_map.mpr ⟨p, hp, hpk⟩
    rw [hk1] at hmem
    rw [List.map_append, List.nodup_append] at hnd
    exact hnd.2.2 hmem (by simp)
  constructor
  · intro t hvt hne'
    have ht : truthyTag v.nameTag = true := by simp [truthyTag, hvt, hne']
    rw [get_drive_names_cons_truthy v l2 pending ht] at h2
    cases hrec : get_drive_names l2 pending with
    | none => rw [hrec] at h2; cases h2
    | some p =>
      obtain ⟨m2', rest'⟩ := p
      rw [hrec] at h2
      cases h2
      have hgetd : v.nameTag.getD "" = t := by rw [hvt]; rfl
      rw [hgetd]
      refine ⟨find?_assoc_middle v.volumeId t m1 m2' hvid_not, m1, m2', rfl, ?_⟩
      exact get_drive_names_append_of l1 l2 inputs pending rest m1 m2' h1 hrec
  · intro htf
    cases hr : readDriveName pending with
    | none =>
      rw [get_drive_names_cons_prompt_none v l2 pending htf hr] at h2
      cases h2
    | some q =>
      obtain ⟨d, p1⟩ := q
      rw [get_drive_names_cons_prompt v l2 pending d p1 htf hr] at h2
      cases hrec : get_drive_names l2 p1 with
      | none => rw [hrec] at h2; cases h2
      | some p =>
        obtain ⟨m2', rest'⟩ := p
        rw [hrec] at h2
        cases h2
        exact ⟨m1, pending, d, p1, h1, hr,
          find?_assoc_middle v.volumeId d m1 m2' hvid_not⟩

/-- Witness for C3: a tagged volume followed by an untagged one, with
the stream containing an empty entry then ` DATA `; the untagged
volume's drive name is the first non-empty stripped entry. -/
theorem c3_drive_names_amended_witness :
    ∃ m1 pending drive_name pending₁,
      get_drive_names [{ volumeId := "vol-1", deviceName := "/dev/sda1", size := 100,
                         nameTag := some "db", iops := 3000, throughput := 125 }]
          ["", " DATA "]
        = some (m1, pending) ∧
      readDriveName pending = some (drive_name, pending₁) ∧
      [("vol-1", "db"), ("vol-2", "DATA")].find?
          (fun p : String × String => p.1 = "vol-2")
        = some ("vol-2", drive_name) :=
  (c3_drive_names_amended
    [{ volumeId := "vol-1", deviceName := "/dev/sda1", size := 100,
       nameTag := some "db", iops := 3000, throughput := 125 },
     { volumeId := "vol-2", deviceName := "/dev/sdb1", size := 200,
       nameTag := none, iops := 3000, throughput := 125 }]
    ["", " DATA "]
    [("vol-1", "db"), ("vol-2", "DATA")] []
    (by decide) (by decide)
    [{ volumeId := "vol-1", deviceName := "/dev/sda1", size := 100,
       nameTag := some "db", iops := 3000, throughput := 125 }]
    { volumeId := "vol-2", deviceName := "/dev/sdb1", size := 200,
      nameTag := none, iops := 3000, throughput := 125 }
    [] rfl).2 rfl

/-- C7: an accepted instance id starts with `i-`, has length greater
than 2, and is the stripped form of an entered string; a valid stripped
entry is accepted immediately; an invalid one is rejected and the loop
re-prompts on the remaining stream; in particular `bad-id` is never
accepted. -/
theorem c7_instance_id_validation :
    (∀ (inputs : List String) (r : String), readInstanceId inputs = some r →
        pyStartsWith r "i-" = true ∧ 2 < r.length ∧ ∃ s ∈ inputs, pyStrip s = r) ∧
    (∀ (s : String) (inputs : List String), validInstanceId (pyStrip s) = true →
        readInstanceId (s :: inputs) = some (pyStrip s)) ∧
    (∀ (s : String) (inputs : List String), validInstanceId (pyStrip s) = false →
        readInstanceId (s :: inputs) = readInstanceId inputs) ∧
    (∀ inputs : List String, readInstanceId inputs ≠ some "bad-id") := by
  have main : ∀ (inputs : List String) (r : String), readInstanceId inputs = some r →
      pyStartsWith r "i-" = true ∧ 2 < r.length ∧ ∃ s ∈ inputs, pyStrip s = r := by
    intro inputs
    induction inputs with
    | nil => intro r h; cases h
    | cons s rest ih =>
      intro r h
      rw [readInstanceId] at h
      by_cases hv : validInstanceId (pyStrip s) = true
      · rw [if_pos hv] at h
        cases h
        have hv' := hv
        simp only [validInstanceId, Bool.and_eq_true, decide_eq_true_eq] at hv'
        exact ⟨hv'.1, by simpa using hv'.2, s, List.mem_cons_self s rest, rfl⟩
      · rw [if_neg hv] at h
        obtain ⟨h1, h2, t, ht, htr⟩ := ih r h
        exact ⟨h1, h2, t, List.mem_cons_of_mem s ht, htr⟩
  refine ⟨main, ?_, ?_, ?_⟩
  · intro s inputs hv
    rw [readInstanceId, if_pos hv]
  · intro s inputs hv
    rw [readInstanceId, if_neg (by simp [hv])]
  · intro inputs hbad
    have hprops := main inputs "bad-id" hbad
    exact absurd hprops.1 (by decide)

/-- Witness for C7: the stream enters `bad-id` then ` i-abc `; the
accepted id is the stripped `i-abc`. -/
theorem c7_instance_id_validation_witness :
    pyStartsWith "i-abc" "i-" = true ∧ 2 < ("i-abc" : String).length ∧
      ∃ s ∈ ["bad-id", " i-abc "], pyStrip s = "i-abc" :=
  c7_instance_id_validation.1 ["bad-id", " i-abc "] "i-abc" (by decide)
